import Mathlib

/-!
Verification of the transaction-store and report-aggregation core of the
personal finance tracker (`PersonalFinanceTracker-complete-fix.py`).

The embedding follows the source:
* a transaction is the dict `{"type": ..., "category": ..., "amount": ...}`
  built in the save handler (line 104); the `type` field holds the lowercased
  string `"income"` or `"expense"`, and the amount is modelled as an exact
  rational (the spec treats amounts as exact decimals);
* the grouping loop of `plot_dashboard` (lines 25-28) becomes `groupFold`
  over insertion-ordered association lists (`bump` models
  `cats[c] = cats.get(c, 0) + a` on a Python dict);
* the totals and the allocation chart data (lines 30-32, 54-57) become
  `total_income`, `total_expense`, `balance`, `savings`, `display_expense`
  and `allocation`;
* the store mutations are the save handler (lines 103-114: append or
  replace at `editing_index`) and the delete handler (lines 144-146:
  `pop(i)`); a Python `IndexError` is modelled as the
  `StoreError.IndexOutOfRange` value of an `Except` result, and the form
  validation `st.number_input(min_value=0.01)` (line 101) as the
  `StoreError.InvalidTransaction` guard of the save handler.
-/

set_option autoImplicit false

namespace FinanceTracker

/-- A transaction record, the dict built at line 104 of the source:
`type` is the lowercased type string, `category` a label, `amount` the
monetary amount as an exact rational. -/
structure Transaction where
  type : String
  category : String
  amount : ℚ
deriving DecidableEq, Repr

/-- Income category vocabulary, line 20 of the source. -/
def income_categories : List String :=
  ["Salary", "Business/Profession", "Interest", "Dividends", "Capital Gains",
   "Rental", "Other Asset Income", "Refunds/Reimbursements", "Gifts",
   "Transfers In", "Other/One time"]

/-- Expense category vocabulary, line 21 of the source. -/
def expense_categories : List String :=
  ["Rent", "Home Loan", "Vehicle loan", "Transport", "Outside Food",
   "Groceries", "Utilities", "Insurance", "Health", "Family & Education",
   "Lifestyle", "Travel", "Fuel", "Taxes", "Savings & Investments",
   "House help & Services", "One-time", "Transfers Out", "Other/One time"]

/-- A valid transaction: the type string is one of the two the form can
produce, the category belongs to the matching vocabulary, and the amount is
positive (the data-model invariants of the spec, enforced by the form). -/
def Transaction.valid (t : Transaction) : Prop :=
  ((t.type = "income" ∧ t.category ∈ income_categories) ∨
   (t.type = "expense" ∧ t.category ∈ expense_categories)) ∧ 0 < t.amount

instance (t : Transaction) : Decidable t.valid := by
  unfold Transaction.valid
  infer_instance

/-- One dict update `cats[c] = cats.get(c, 0) + a` (line 28 of the source)
on an insertion-ordered association list: add `a` to the entry of key `c`
in place, or append a fresh entry at the end. -/
def bump (m : List (String × ℚ)) (c : String) (a : ℚ) : List (String × ℚ) :=
  match m with
  | [] => [(c, a)]
  | (c', v) :: rest => if c' = c then (c', v + a) :: rest else (c', v) :: bump rest c a

/-- The grouping loop of `plot_dashboard` (lines 26-28 of the source):
each transaction is added to the income map when its type string is
`"income"`, otherwise to the expense map. -/
def groupFold (m1 m2 : List (String × ℚ)) : List Transaction → List (String × ℚ) × List (String × ℚ)
  | [] => (m1, m2)
  | t :: rest =>
    if t.type = "income" then groupFold (bump m1 t.category t.amount) m2 rest
    else groupFold m1 (bump m2 t.category t.amount) rest

/-- Dict lookup on the association-list model: the value stored at key `c`,
if any. -/
def lookupCat : List (String × ℚ) → String → Option ℚ
  | [], _ => none
  | (c', v) :: rest, c => if c' = c then some v else lookupCat rest c

/-- Sum of the values of a category map (`sum(d.values())`, lines 30-31). -/
def valuesSum : List (String × ℚ) → ℚ
  | [] => 0
  | (_, v) :: rest => v + valuesSum rest

/-- Sum of the amounts of a list of transactions. -/
def amountSum : List Transaction → ℚ
  | [] => 0
  | t :: rest => t.amount + amountSum rest

/-- Per-category income map of the dashboard (`income_by_cat`). -/
def income_by_cat (txs : List Transaction) : List (String × ℚ) :=
  (groupFold [] [] txs).1

/-- Per-category expense map of the dashboard (`expense_by_cat`). -/
def expense_by_cat (txs : List Transaction) : List (String × ℚ) :=
  (groupFold [] [] txs).2

/-- Line 30 of the source: `total_income = sum(income_by_cat.values())`. -/
def total_income (txs : List Transaction) : ℚ :=
  valuesSum (income_by_cat txs)

/-- Line 31 of the source: `total_expense = sum(expense_by_cat.values())`. -/
def total_expense (txs : List Transaction) : ℚ :=
  valuesSum (expense_by_cat txs)

/-- Line 32 of the source: `balance = total_income - total_expense`. -/
def balance (txs : List Transaction) : ℚ :=
  total_income txs - total_expense txs

/-- Line 55 of the source: `savings = max(0, balance)`. -/
def savings (txs : List Transaction) : ℚ :=
  max 0 (balance txs)

/-- Line 56 of the source: `display_expense = min(total_expense, total_income)`. -/
def display_expense (txs : List Transaction) : ℚ :=
  min (total_expense txs) (total_income txs)

/-- The allocation chart data (lines 54-67 of the source): drawn only when
`total_income > 0` and at least one slice is positive, otherwise absent. -/
def allocation (txs : List Transaction) : Option (ℚ × ℚ) :=
  if 0 < total_income txs then
    if 0 < display_expense txs ∨ 0 < savings txs then
      some (display_expense txs, savings txs)
    else none
  else none

/-- The data the dashboard computes from the transaction list. -/
structure Report where
  income_by_cat : List (String × ℚ)
  expense_by_cat : List (String × ℚ)
  total_income : ℚ
  total_expense : ℚ
  balance : ℚ
  allocation : Option (ℚ × ℚ)
deriving DecidableEq, Repr

/-- The pure aggregation performed by `plot_dashboard` (lines 24-32, 54-57
of the source). -/
def summarize (txs : List Transaction) : Report :=
  { income_by_cat := income_by_cat txs
    expense_by_cat := expense_by_cat txs
    total_income := total_income txs
    total_expense := total_expense txs
    balance := balance txs
    allocation := allocation txs }

/-- The recoverable error kinds of the spec: a Python `IndexError` from
list indexing or `pop` maps to `IndexOutOfRange`, a rejected form value to
`InvalidTransaction`. -/
inductive StoreError where
  | IndexOutOfRange
  | InvalidTransaction
deriving DecidableEq, Repr

/-- Line 107 of the source, `st.session_state.transactions[i] = t`:
replace the element at position `i`, a Python `IndexError` when `i` is not
a valid position. -/
def updateTx (s : List Transaction) (i : ℕ) (t : Transaction) :
    Except StoreError (List Transaction) :=
  if i < s.length then .ok (s.set i t) else .error .IndexOutOfRange

/-- Line 145 of the source, `st.session_state.transactions.pop(i)`:
delete the element at position `i`, shifting later elements down, a Python
`IndexError` when `i` is not a valid position. -/
def removeTx (s : List Transaction) (i : ℕ) :
    Except StoreError (List Transaction) :=
  if i < s.length then .ok (s.eraseIdx i) else .error .IndexOutOfRange

/-- The session state of the app (lines 14-17 of the source): the
transaction list and the optional index of the transaction being edited. -/
structure AppState where
  transactions : List Transaction
  editing_index : Option ℕ
deriving DecidableEq, Repr

/-- The save-button handler (lines 101-114 of the source). The number
input enforces `min_value=0.01`, so a submission whose amount is below
`0.01` is rejected (`InvalidTransaction`); otherwise the transaction
replaces the entry at `editing_index` when one is set (clearing it), and
is appended to the end when none is. -/
def saveHandler (s : AppState) (t : Transaction) : Except StoreError AppState :=
  if t.amount < 0.01 then .error .InvalidTransaction
  else
    match s.editing_index with
    | some i =>
      match updateTx s.transactions i t with
      | .ok l => .ok { transactions := l, editing_index := none }
      | .error e => .error e
    | none => .ok { transactions := s.transactions ++ [t], editing_index := s.editing_index }

/-- The delete-button handler (lines 144-146 of the source): `pop(i)` on
the transaction list; `editing_index` is not touched. -/
def deleteHandler (s : AppState) (i : ℕ) : Except StoreError AppState :=
  match removeTx s.transactions i with
  | .ok l => .ok { transactions := l, editing_index := s.editing_index }
  | .error e => .error e

/-- One store mutation: an append (save with no edit pending) or a
deletion by position. -/
inductive StoreOp where
  | add (t : Transaction)
  | remove (i : ℕ)
deriving DecidableEq, Repr

/-- Apply one mutation to the transaction list. -/
def applyOp (s : List Transaction) : StoreOp → Except StoreError (List Transaction)
  | .add t => .ok (s ++ [t])
  | .remove i => removeTx s i

/-- Run a sequence of mutations, stopping at the first error. -/
def runOps (s : List Transaction) : List StoreOp → Except StoreError (List Transaction)
  | [] => .ok s
  | op :: ops =>
    match applyOp s op with
    | .ok s' => runOps s' ops
    | .error e => .error e

/-- Number of `add` operations in a sequence. -/
def countAdds : List StoreOp → ℕ
  | [] => 0
  | .add _ :: ops => countAdds ops + 1
  | .remove _ :: ops => countAdds ops

/-- Number of `remove` operations in a sequence. -/
def countRemoves : List StoreOp → ℕ
  | [] => 0
  | .add _ :: ops => countRemoves ops
  | .remove _ :: ops => countRemoves ops + 1

/-- The transactions a sequence of operations adds, in insertion order. -/
def addedTxs : List StoreOp → List Transaction
  | [] => []
  | .add t :: ops => t :: addedTxs ops
  | .remove _ :: ops => addedTxs ops

/-! Sample transactions (the worked example of the spec) used as concrete
inputs by the witnesses below. -/

/-- Income/Salary/1000. -/
def txA : Transaction := { type := "income", category := "Salary", amount := 1000 }

/-- Income/Gifts/200. -/
def txB : Transaction := { type := "income", category := "Gifts", amount := 200 }

/-- Expense/Rent/500. -/
def txC : Transaction := { type := "expense", category := "Rent", amount := 500 }

/-- Expense/Groceries/300. -/
def txD : Transaction := { type := "expense", category := "Groceries", amount := 300 }

/-- Claim C7: `summarize` applied to the empty transaction list returns
`total_income = 0`, `total_expense = 0`, empty income and expense
per-category maps, and no allocation data. -/
theorem summarize_nil :
    (summarize []).total_income = 0 ∧ (summarize []).total_expense = 0 ∧
    (summarize []).income_by_cat = [] ∧ (summarize []).expense_by_cat = [] ∧
    (summarize []).allocation = none := by
  norm_num [summarize, income_by_cat, expense_by_cat, total_income,
    total_expense, balance, allocation, groupFold, valuesSum, savings,
    display_expense]

/-- Claim C8: the fixed income vocabulary is exactly the 11 listed labels
and the fixed expense vocabulary exactly the 19 listed labels, in order
and spelling. -/
theorem category_vocabularies :
    income_categories =
      ["Salary", "Business/Profession", "Interest", "Dividends",
       "Capital Gains", "Rental", "Other Asset Income",
       "Refunds/Reimbursements", "Gifts", "Transfers In", "Other/One time"] ∧
    income_categories.length = 11 ∧
    expense_categories =
      ["Rent", "Home Loan", "Vehicle loan", "Transport", "Outside Food",
       "Groceries", "Utilities", "Insurance", "Health", "Family & Education",
       "Lifestyle", "Travel", "Fuel", "Taxes", "Savings & Investments",
       "House help & Services", "One-time", "Transfers Out", "Other/One time"] ∧
    expense_categories.length = 19 :=
  ⟨rfl, rfl, rfl, rfl⟩

/-- Claim C2: when total expense exceeds total income the allocation shows
`display_expense = total_income` and `savings = 0`; otherwise it shows
`display_expense = total_expense` and `savings = total_income - total_expense`. -/
theorem allocation_branches (txs : List Transaction) (_h : ∀ t ∈ txs, t.valid) :
    (total_income txs < total_expense txs →
      display_expense txs = total_income txs ∧ savings txs = 0) ∧
    (total_expense txs ≤ total_income txs →
      display_expense txs = total_expense txs ∧
      savings txs = total_income txs - total_expense txs) := by
  constructor
  · intro hlt
    refine ⟨min_eq_right hlt.le, ?_⟩
    unfold savings balance
    exact max_eq_left (by linarith)
  · intro hle
    refine ⟨min_eq_left hle, ?_⟩
    unfold savings balance
    exact max_eq_right (by linarith)

/-- Witness for C2 at the spec's worked example (income 1200, expense 800). -/
theorem allocation_branches_witness :
    (∀ t ∈ [txA, txB, txC, txD], t.valid) ∧
    ((total_income [txA, txB, txC, txD] < total_expense [txA, txB, txC, txD] →
      display_expense [txA, txB, txC, txD] = total_income [txA, txB, txC, txD] ∧
      savings [txA, txB, txC, txD] = 0) ∧
    (total_expense [txA, txB, txC, txD] ≤ total_income [txA, txB, txC, txD] →
      display_expense [txA, txB, txC, txD] = total_expense [txA, txB, txC, txD] ∧
      savings [txA, txB, txC, txD] =
        total_income [txA, txB, txC, txD] - total_expense [txA, txB, txC, txD])) :=
  ⟨by decide, allocation_branches [txA, txB, txC, txD] (by decide)⟩

/-- Claim C9: the allocation components satisfy
`display_expense = min(total_expense, total_income)`,
`savings = max(0, total_income - total_expense)`, and
`display_expense + savings = total_income`. -/
theorem allocation_sums_to_income (txs : List Transaction) (_h : ∀ t ∈ txs, t.valid) :
    display_expense txs = min (total_expense txs) (total_income txs) ∧
    savings txs = max 0 (total_income txs - total_expense txs) ∧
    display_expense txs + savings txs = total_income txs := by
  refine ⟨rfl, rfl, ?_⟩
  unfold display_expense savings balance
  rcases le_total (total_expense txs) (total_income txs) with hle | hle
  · rw [min_eq_left hle, max_eq_right (by linarith)]
    ring
  · rw [min_eq_right hle, max_eq_left (by linarith)]
    ring

/-- Witness for C9 at the spec's worked example. -/
theorem allocation_sums_to_income_witness :
    (∀ t ∈ [txA, txC], t.valid) ∧
    (display_expense [txA, txC] = min (total_expense [txA, txC]) (total_income [txA, txC]) ∧
    savings [txA, txC] = max 0 (total_income [txA, txC] - total_expense [txA, txC]) ∧
    display_expense [txA, txC] + savings [txA, txC] = total_income [txA, txC]) :=
  ⟨by decide, allocation_sums_to_income [txA, txC] (by decide)⟩

/-- A zero-amount transaction, a concrete invalid form submission. -/
def txZero : Transaction := { type := "income", category := "Salary", amount := 0 }

/-- Claim C4: for every app state, saving a transaction whose amount is
zero or negative fails with `InvalidTransaction` and produces no new
state (the store is unchanged). -/
theorem save_nonpositive_rejected (s : AppState) (t : Transaction)
    (h : t.amount ≤ 0) :
    saveHandler s t = Except.error StoreError.InvalidTransaction ∧
    ∀ s', saveHandler s t ≠ Except.ok s' := by
  have hlt : t.amount < 0.01 := lt_of_le_of_lt h (by norm_num)
  constructor
  · simp [saveHandler, hlt]
  · intro s'
    simp [saveHandler, hlt]

/-- Witness for C4: the zero-amount submission on the empty session state. -/
theorem save_nonpositive_rejected_witness :
    txZero.amount ≤ 0 ∧
    (saveHandler ⟨[], none⟩ txZero = Except.error StoreError.InvalidTransaction ∧
    ∀ s', saveHandler ⟨[], none⟩ txZero ≠ Except.ok s') :=
  ⟨by norm_num [txZero], save_nonpositive_rejected ⟨[], none⟩ txZero (by norm_num [txZero])⟩

/-- Claim C5: replacing the entry at an index that is not a valid current
position fails with `IndexOutOfRange` and produces no new list (the store
is unchanged). -/
theorem update_out_of_range (s : List Transaction) (i : ℕ) (t : Transaction)
    (h : s.length ≤ i) :
    updateTx s i t = Except.error StoreError.IndexOutOfRange ∧
    ∀ l, updateTx s i t ≠ Except.ok l := by
  have hi : ¬ i < s.length := Nat.not_lt.mpr h
  constructor
  · simp [updateTx, hi]
  · intro l
    simp [updateTx, hi]

/-- Witness for C5: updating position 1 of a one-element store. -/
theorem update_out_of_range_witness :
    List.length [txA] ≤ 1 ∧
    (updateTx [txA] 1 txB = Except.error StoreError.IndexOutOfRange ∧
    ∀ l, updateTx [txA] 1 txB ≠ Except.ok l) :=
  ⟨by decide, update_out_of_range [txA] 1 txB (by decide)⟩

/-- Claim C10: a successful deletion leaves `editing_index` exactly as it
was, and a subsequent successful save still writes to the same numeric
position the edit reference held before the deletion. -/
theorem delete_preserves_editing_index (s : AppState) (i : ℕ) (s' : AppState)
    (h : deleteHandler s i = Except.ok s') :
    s'.editing_index = s.editing_index ∧
    (∀ j t, s.editing_index = some j → j < s'.transactions.length →
      ¬ t.amount < 0.01 →
      saveHandler s' t =
        Except.ok { transactions := s'.transactions.set j t, editing_index := none }) := by
  cases hrm : removeTx s.transactions i with
  | error e =>
    rw [deleteHandler, hrm] at h
    cases h
  | ok l =>
    rw [deleteHandler, hrm] at h
    cases h
    refine ⟨rfl, ?_⟩
    intro j t hj hlen hamt
    simp [saveHandler, hamt, hj, updateTx, hlen]

/-- Witness for C10: deleting index 0 while index 1 is being edited; the
edit reference still points at position 1 and the save writes there. -/
theorem delete_preserves_editing_index_witness :
    deleteHandler ⟨[txA, txB, txC], some 1⟩ 0 = Except.ok ⟨[txB, txC], some 1⟩ ∧
    ((⟨[txB, txC], some 1⟩ : AppState).editing_index =
      (⟨[txA, txB, txC], some 1⟩ : AppState).editing_index ∧
    (∀ j t, (⟨[txA, txB, txC], some 1⟩ : AppState).editing_index = some j →
      j < (⟨[txB, txC], some 1⟩ : AppState).transactions.length →
      ¬ t.amount < 0.01 →
      saveHandler ⟨[txB, txC], some 1⟩ t =
        Except.ok { transactions := List.set [txB, txC] j t, editing_index := none })) :=
  ⟨by rfl, delete_preserves_editing_index ⟨[txA, txB, txC], some 1⟩ 0 ⟨[txB, txC], some 1⟩ (by rfl)⟩

/-- Counterexample to claim C3 as stated: on the two-element store
`[txA, txC]` the valid index `0` can be removed twice in a row; the second
`remove 0` succeeds (it deletes the element that shifted into position 0)
instead of failing with `IndexOutOfRange`. -/
theorem remove_twice_counterexample :
    removeTx [txA, txC] 0 = Except.ok [txC] ∧
    removeTx [txC] 0 = Except.ok [] ∧
    removeTx [txC] 0 ≠ Except.error StoreError.IndexOutOfRange := by
  refine ⟨rfl, rfl, ?_⟩
  simp [removeTx]

/-- Claim C3 (amended): after `remove i` succeeds on a store of `n`
transactions, a second `remove i` fails with `IndexOutOfRange` exactly when
`i` was the last valid position (`i + 1 = n`); for any earlier position the
second removal succeeds, deleting the element that shifted into place. -/
theorem remove_twice (s : List Transaction) (i : ℕ) (h : i < s.length) :
    removeTx s i = Except.ok (s.eraseIdx i) ∧
    (removeTx (s.eraseIdx i) i = Except.error StoreError.IndexOutOfRange ↔
      i + 1 = s.length) := by
  have hlen : (s.eraseIdx i).length + 1 = s.length := List.length_eraseIdx_add_one h
  refine ⟨by simp [removeTx, h], ?_⟩
  constructor
  · intro he
    by_contra hne
    have hi : i < (s.eraseIdx i).length := by omega
    simp [removeTx, hi] at he
  · intro heq
    have hi : ¬ i < (s.eraseIdx i).length := by omega
    simp [removeTx, hi]

/-- Witness for the amended C3: removing the last index 1 of a two-element
store twice fails the second time, since 1 + 1 = 2 is the original length. -/
theorem remove_twice_witness :
    1 < List.length [txA, txC] ∧
    (removeTx [txA, txC] 1 = Except.ok (List.eraseIdx [txA, txC] 1) ∧
    (removeTx (List.eraseIdx [txA, txC] 1) 1 = Except.error StoreError.IndexOutOfRange ↔
      1 + 1 = List.length [txA, txC])) :=
  ⟨by decide, remove_twice [txA, txC] 1 (by decide)⟩

/-- Run-length accounting: a successful run of operations grows the store
by the adds and shrinks it by the removes. -/
theorem runOps_length (ops : List StoreOp) :
    ∀ (s final : List Transaction), runOps s ops = Except.ok final →
      final.length + countRemoves ops = s.length + countAdds ops := by
  induction ops with
  | nil =>
    intro s final h
    rw [runOps] at h
    cases h
    simp [countAdds, countRemoves]
  | cons op ops ih =>
    intro s final h
    cases op with
    | add t =>
      rw [runOps, applyOp] at h
      have := ih (s ++ [t]) final h
      simp only [List.length_append, List.length_cons, List.length_nil] at this
      simp [countAdds, countRemoves]
      omega
    | remove i =>
      rw [runOps, applyOp] at h
      cases hrm : removeTx s i with
      | error e => rw [hrm] at h; cases h
      | ok l =>
        rw [hrm] at h
        have hlt : i < s.length := by
          by_contra hge
          simp [removeTx, hge] at hrm
        have hl : l = s.eraseIdx i := by
          simp [removeTx, hlt] at hrm
          exact hrm.symm
        have hlen : l.length + 1 = s.length := by
          rw [hl]; exact List.length_eraseIdx_add_one hlt
        have := ih l final h
        simp [countAdds, countRemoves]
        omega

/-- A successful run of operations ends in a sublist of the initial store
followed by the added transactions, in order. -/
theorem runOps_sublist (ops : List StoreOp) :
    ∀ (s final : List Transaction), runOps s ops = Except.ok final →
      List.Sublist final (s ++ addedTxs ops) := by
  induction ops with
  | nil =>
    intro s final h
    rw [runOps] at h
    cases h
    simp [addedTxs]
  | cons op ops ih =>
    intro s final h
    cases op with
    | add t =>
      rw [runOps, applyOp] at h
      have := ih (s ++ [t]) final h
      simpa [addedTxs] using this
    | remove i =>
      rw [runOps, applyOp] at h
      cases hrm : removeTx s i with
      | error e => rw [hrm] at h; cases h
      | ok l =>
        rw [hrm] at h
        have hlt : i < s.length := by
          by_contra hge
          simp [removeTx, hge] at hrm
        have hl : l = s.eraseIdx i := by
          simp [removeTx, hlt] at hrm
          exact hrm.symm
        have hsub : List.Sublist l s := by
          rw [hl]; exact List.eraseIdx_sublist s i
        have := ih l final h
        rw [addedTxs]
        exact this.trans (hsub.append_right (addedTxs ops))

/-- Claim C6: for every sequence of adds and removes run from the empty
store, the surviving list is the added transactions in insertion order with
deletions applied (a sublist of the adds, in order), its length is the
number of adds minus the number of removes, an add appends to the end, and
a remove at a valid position deletes exactly that element, shifting every
later element one place left. -/
theorem store_ops_spec (ops : List StoreOp) (final : List Transaction)
    (h : runOps [] ops = Except.ok final) :
    List.Sublist final (addedTxs ops) ∧
    final.length + countRemoves ops = countAdds ops ∧
    (∀ (s : List Transaction) (t : Transaction),
      applyOp s (StoreOp.add t) = Except.ok (s ++ [t])) ∧
    (∀ (s : List Transaction) (i : ℕ), i < s.length →
      applyOp s (StoreOp.remove i) = Except.ok (s.take i ++ s.drop (i + 1))) := by
  refine ⟨?_, ?_, ?_, ?_⟩
  · simpa using runOps_sublist ops [] final h
  · simpa using runOps_length ops [] final h
  · intro s t
    rfl
  · intro s i hi
    rw [applyOp]
    simp [removeTx, hi, List.eraseIdx_eq_take_drop_succ]

/-- Witness for C6: add three transactions, remove position 1; the run
keeps `[txA, txC]`, of length 3 - 1 = 2. -/
theorem store_ops_spec_witness :
    runOps [] [StoreOp.add txA, StoreOp.add txB, StoreOp.add txC, StoreOp.remove 1] =
      Except.ok [txA, txC] ∧
    (List.Sublist [txA, txC]
      (addedTxs [StoreOp.add txA, StoreOp.add txB, StoreOp.add txC, StoreOp.remove 1]) ∧
    List.length [txA, txC] +
      countRemoves [StoreOp.add txA, StoreOp.add txB, StoreOp.add txC, StoreOp.remove 1] =
      countAdds [StoreOp.add txA, StoreOp.add txB, StoreOp.add txC, StoreOp.remove 1] ∧
    (∀ (s : List Transaction) (t : Transaction),
      applyOp s (StoreOp.add t) = Except.ok (s ++ [t])) ∧
    (∀ (s : List Transaction) (i : ℕ), i < s.length →
      applyOp s (StoreOp.remove i) = Except.ok (s.take i ++ s.drop (i + 1)))) :=
  ⟨by rfl,
   store_ops_spec [StoreOp.add txA, StoreOp.add txB, StoreOp.add txC, StoreOp.remove 1]
     [txA, txC] (by rfl)⟩

/-- Looking a key up after a `bump`: the bumped key gains `a` on top of its
old value (`0` when absent), every other key is untouched. -/
theorem lookupCat_bump (m : List (String × ℚ)) (c : String) (a : ℚ) (c' : String) :
    lookupCat (bump m c a) c' =
      if c = c' then some ((lookupCat m c).getD 0 + a) else lookupCat m c' := by
  induction m with
  | nil =>
    by_cases hcc : c = c' <;> simp [bump, lookupCat, hcc]
  | cons kv rest ih =>
    obtain ⟨k, v⟩ := kv
    by_cases hkc : k = c
    · subst hkc
      by_cases hcc : k = c' <;> simp [bump, lookupCat, hcc]
    · by_cases hkc' : k = c'
      · subst hkc'
        have hcc : ¬ c = k := fun hh => hkc hh.symm
        simp [bump, lookupCat, hkc, hcc]
      · simp [bump, lookupCat, hkc, hkc', ih]

/-- A `bump` adds its amount to the total of the map's values. -/
theorem valuesSum_bump (m : List (String × ℚ)) (c : String) (a : ℚ) :
    valuesSum (bump m c a) = valuesSum m + a := by
  induction m with
  | nil => simp [bump, valuesSum]
  | cons kv rest ih =>
    obtain ⟨k, v⟩ := kv
    by_cases hkc : k = c
    · simp [bump, valuesSum, hkc]
      ring
    · simp [bump, valuesSum, hkc, ih]
      ring

/-- The transactions of type income and category `c`. -/
def incAt (c : String) (txs : List Transaction) : List Transaction :=
  txs.filter (fun t => t.type == "income" && t.category == c)

/-- The transactions the grouping loop sends to the expense map (type
string not `"income"`) with category `c`. -/
def expAt (c : String) (txs : List Transaction) : List Transaction :=
  txs.filter (fun t => !(t.type == "income") && t.category == c)

/-- The income entry of the grouping loop's result at key `c`: the
accumulator's entry plus the summed amounts of the matching transactions,
untouched when no transaction matches. -/
theorem groupFold_fst_lookup (txs : List Transaction) :
    ∀ (m1 m2 : List (String × ℚ)) (c : String),
      lookupCat (groupFold m1 m2 txs).1 c =
        if incAt c txs = [] then lookupCat m1 c
        else some ((lookupCat m1 c).getD 0 + amountSum (incAt c txs)) := by
  induction txs with
  | nil =>
    intro m1 m2 c
    simp [groupFold, incAt]
  | cons t rest ih =>
    intro m1 m2 c
    by_cases hty : t.type = "income"
    · by_cases hcat : t.category = c
      · have hfil : incAt c (t :: rest) = t :: incAt c rest := by
          simp [incAt, List.filter_cons, hty, hcat]
        rw [groupFold, if_pos hty, ih, hfil, hcat, lookupCat_bump, if_pos rfl]
        by_cases hrest : incAt c rest = []
        · simp [hrest, amountSum]
        · simp [hrest, amountSum, add_assoc]
      · have hfil : incAt c (t :: rest) = incAt c rest := by
          simp [incAt, List.filter_cons, hcat]
        rw [groupFold, if_pos hty, ih, hfil, lookupCat_bump, if_neg hcat]
    · have hfil : incAt c (t :: rest) = incAt c rest := by
        simp [incAt, List.filter_cons, hty]
      rw [groupFold, if_neg hty, ih, hfil]

/-- The expense entry of the grouping loop's result at key `c`, the mirror
of `groupFold_fst_lookup`. -/
theorem groupFold_snd_lookup (txs : List Transaction) :
    ∀ (m1 m2 : List (String × ℚ)) (c : String),
      lookupCat (groupFold m1 m2 txs).2 c =
        if expAt c txs = [] then lookupCat m2 c
        else some ((lookupCat m2 c).getD 0 + amountSum (expAt c txs)) := by
  induction txs with
  | nil =>
    intro m1 m2 c
    simp [groupFold, expAt]
  | cons t rest ih =>
    intro m1 m2 c
    by_cases hty : t.type = "income"
    · have hfil : expAt c (t :: rest) = expAt c rest := by
        simp [expAt, List.filter_cons, hty]
      rw [groupFold, if_pos hty, ih, hfil]
    · by_cases hcat : t.category = c
      · have hfil : expAt c (t :: rest) = t :: expAt c rest := by
          simp [expAt, List.filter_cons, hty, hcat]
        rw [groupFold, if_neg hty, ih, hfil, hcat, lookupCat_bump, if_pos rfl]
        by_cases hrest : expAt c rest = []
        · simp [hrest, amountSum]
        · simp [hrest, amountSum, add_assoc]
      · have hfil : expAt c (t :: rest) = expAt c rest := by
          simp [expAt, List.filter_cons, hcat]
        rw [groupFold, if_neg hty, ih, hfil, lookupCat_bump, if_neg hcat]

/-- The value total of the income map equals the accumulator's total plus
the amounts of all income transactions. -/
theorem groupFold_fst_sum (txs : List Transaction) :
    ∀ (m1 m2 : List (String × ℚ)),
      valuesSum (groupFold m1 m2 txs).1 =
        valuesSum m1 + amountSum (txs.filter (fun t => t.type == "income")) := by
  induction txs with
  | nil =>
    intro m1 m2
    simp [groupFold, amountSum]
  | cons t rest ih =>
    intro m1 m2
    by_cases hty : t.type = "income"
    · rw [groupFold, if_pos hty, ih, valuesSum_bump]
      simp [List.filter_cons, hty, amountSum]
      ring
    · rw [groupFold, if_neg hty, ih]
      simp [List.filter_cons, hty]

/-- The value total of the expense map equals the accumulator's total plus
the amounts of all transactions the loop sends to the expense map. -/
theorem groupFold_snd_sum (txs : List Transaction) :
    ∀ (m1 m2 : List (String × ℚ)),
      valuesSum (groupFold m1 m2 txs).2 =
        valuesSum m2 + amountSum (txs.filter (fun t => !(t.type == "income"))) := by
  induction txs with
  | nil =>
    intro m1 m2
    simp [groupFold, amountSum]
  | cons t rest ih =>
    intro m1 m2
    by_cases hty : t.type = "income"
    · rw [groupFold, if_pos hty, ih]
      simp [List.filter_cons, hty]
    · rw [groupFold, if_neg hty, ih, valuesSum_bump]
      simp [List.filter_cons, hty, amountSum]
      ring

/-- Claim C1: `summarize` groups the valid transactions by type and then
by category, summing amounts per (type, category) pair, with no entry for
a category with no transactions; `total_income` is the sum of all income
amounts, `total_expense` the sum of all expense amounts, and `balance`
their difference. -/
theorem summarize_groups (txs : List Transaction) (h : ∀ t ∈ txs, t.valid) :
    (∀ c, lookupCat (summarize txs).income_by_cat c =
      (if txs.filter (fun t => t.type == "income" && t.category == c) = [] then none
       else some (amountSum (txs.filter (fun t => t.type == "income" && t.category == c))))) ∧
    (∀ c, lookupCat (summarize txs).expense_by_cat c =
      (if txs.filter (fun t => t.type == "expense" && t.category == c) = [] then none
       else some (amountSum (txs.filter (fun t => t.type == "expense" && t.category == c))))) ∧
    (summarize txs).total_income = amountSum (txs.filter (fun t => t.type == "income")) ∧
    (summarize txs).total_expense = amountSum (txs.filter (fun t => t.type == "expense")) ∧
    (summarize txs).balance = (summarize txs).total_income - (summarize txs).total_expense := by
  have hexp : ∀ t ∈ txs, (!(t.type == "income") : Bool) = (t.type == "expense") := by
    intro t ht
    rcases h t ht with ⟨⟨h1, _⟩ | ⟨h1, _⟩, _⟩ <;> simp [h1]
  refine ⟨?_, ?_, ?_, ?_, rfl⟩
  · intro c
    have hbase := groupFold_fst_lookup txs [] [] c
    have h1 : (summarize txs).income_by_cat = (groupFold [] [] txs).1 := rfl
    rw [h1, hbase]
    simp [lookupCat, incAt]
  · intro c
    have hbase := groupFold_snd_lookup txs [] [] c
    have h2 : (summarize txs).expense_by_cat = (groupFold [] [] txs).2 := rfl
    have hfil : expAt c txs =
        txs.filter (fun t => t.type == "expense" && t.category == c) := by
      rw [expAt]
      apply List.filter_congr
      intro t ht
      rw [hexp t ht]
    rw [h2, hbase, hfil]
    simp [lookupCat]
  · have hbase := groupFold_fst_sum txs [] []
    have h3 : (summarize txs).total_income = valuesSum (groupFold [] [] txs).1 := rfl
    rw [h3, hbase]
    simp [valuesSum]
  · have hbase := groupFold_snd_sum txs [] []
    have h4 : (summarize txs).total_expense = valuesSum (groupFold [] [] txs).2 := rfl
    have hfil : txs.filter (fun t => !(t.type == "income")) =
        txs.filter (fun t => t.type == "expense") :=
      List.filter_congr hexp
    rw [h4, hbase, hfil]
    simp [valuesSum]

/-- Witness for C1 at the spec's worked example: Income/Salary/1000,
Income/Gifts/200, Expense/Rent/500, Expense/Groceries/300. -/
theorem summarize_groups_witness :
    (∀ t ∈ [txA, txB, txC, txD], t.valid) ∧
    ((∀ c, lookupCat (summarize [txA, txB, txC, txD]).income_by_cat c =
      (if List.filter (fun t => t.type == "income" && t.category == c) [txA, txB, txC, txD] = [] then none
       else some (amountSum (List.filter (fun t => t.type == "income" && t.category == c) [txA, txB, txC, txD])))) ∧
    (∀ c, lookupCat (summarize [txA, txB, txC, txD]).expense_by_cat c =
      (if List.filter (fun t => t.type == "expense" && t.category == c) [txA, txB, txC, txD] = [] then none
       else some (amountSum (List.filter (fun t => t.type == "expense" && t.category == c) [txA, txB, txC, txD])))) ∧
    (summarize [txA, txB, txC, txD]).total_income =
      amountSum (List.filter (fun t => t.type == "income") [txA, txB, txC, txD]) ∧
    (summarize [txA, txB, txC, txD]).total_expense =
      amountSum (List.filter (fun t => t.type == "expense") [txA, txB, txC, txD]) ∧
    (summarize [txA, txB, txC, txD]).balance =
      (summarize [txA, txB, txC, txD]).total_income -
        (summarize [txA, txB, txC, txD]).total_expense) :=
  ⟨by decide, summarize_groups [txA, txB, txC, txD] (by decide)⟩

end FinanceTracker
